import Mathlib

/-!
Verification of the Fibonacci/nested-span HTTP demo service (src/main.go).

The development shallowly embeds the repository's own code: the recursive
`fibonacci` function over uint64, the `/fibonacci` handler (query parsing via
`strconv.ParseInt(s, 10, 64)`, cast to uint64, response formatting), the
`/nested` handler's straight-line span emission, and the background timer loop
incrementing the `countPerSec` counter. Machine integers are modelled as `Nat`
with explicit `% 2^64`.
-/

set_option maxRecDepth 4000

/-- The uint64 modulus, `2^64`. -/
def U64 : Nat := 2 ^ 64

/-- Embedding of `fibonacci` (src/main.go lines 46-64), numeric behaviour only:
`if n <= 1 { return n }`, else `fibonacci(ctx, n-1) + fibonacci(ctx, n-2)` where
`+` is uint64 addition (mod 2^64). The tracing side effects and the context
argument are modelled separately by `fibonacciTraced`. -/
def fibonacci : Nat → Nat
  | 0 => 0
  | 1 => 1
  | n + 2 => (fibonacci (n + 1) + fibonacci n) % U64

/-- `fibonacci` satisfies the source's `if n <= 1` branch structure literally. -/
theorem fibonacci_eq_ite (n : Nat) :
    fibonacci n = if n ≤ 1 then n else (fibonacci (n - 1) + fibonacci (n - 2)) % U64 := by
  match n with
  | 0 => rfl
  | 1 => rfl
  | n + 2 =>
    rw [if_neg (by omega)]
    rfl

/-- `true` iff `c` is an ASCII decimal digit, as Go's strconv accepts for base 10. -/
def isDigit10 (c : Char) : Bool := 48 ≤ c.toNat && c.toNat ≤ 57

/-- The numeric value of a non-empty all-digit character list, `none` otherwise;
the digit-accumulation loop of Go's `strconv.ParseUint` for base 10. -/
def digitsVal (l : List Char) : Option Nat :=
  if !l.isEmpty && l.all isDigit10 then
    some (l.foldl (fun a c => a * 10 + (c.toNat - 48)) 0)
  else
    none

/-- Embedding of Go `strconv.ParseInt(s, 10, 64)` as called at src/main.go line 92:
an optional single leading `+` or `-` followed by one or more decimal digits,
with the value required to fit in int64 (`≤ 2^63 - 1` for non-negative,
`≤ 2^63` in magnitude for negative); `none` models a non-nil `err`, covering
both syntax and range errors. -/
def parseInt10 (s : String) : Option Int :=
  match s.data with
  | [] => none
  | '+' :: rest =>
    match digitsVal rest with
    | none => none
    | some m => if m ≤ 2 ^ 63 - 1 then some (Int.ofNat m) else none
  | '-' :: rest =>
    match digitsVal rest with
    | none => none
    | some m => if m ≤ 2 ^ 63 then some (-(Int.ofNat m)) else none
  | l =>
    match digitsVal l with
    | none => none
    | some m => if m ≤ 2 ^ 63 - 1 then some (Int.ofNat m) else none

/-- Embedding of the Go conversion `uint64(nCount)` (src/main.go line 98):
two's-complement reinterpretation of an int64 as a uint64, i.e. the value
modulo 2^64. -/
def toUint64 (v : Int) : Nat := (v % (U64 : Int)).toNat

/-- Embedding of `fibonacciHandler.ServeHTTP` (src/main.go lines 90-101) as a
function from the raw `n` query parameter (`req.URL.Query().Get("n")`, which is
`""` when the parameter is absent) to the (status code, body) pair written to
the response writer. -/
def fibonacciServeHTTP (nParam : String) : Nat × String :=
  match parseInt10 nParam with
  | none => (400, "n is not a number")
  | some nCount => (200, Nat.repr (fibonacci (toUint64 nCount)))

/-- One observable telemetry action: starting a span (recording its tracer, its
name and the stack of enclosing span names it is parented under), ending a span,
adding an event, or setting an attribute key. -/
inductive SpanEv where
  | start (tracer name : String) (parent : List String)
  | stop (name : String)
  | addEvent (msg : String)
  | setAttr (key : String)
deriving DecidableEq

/-- The span name `fmt.Sprintf("fibonacci-%d", n)` from src/main.go line 47. -/
def fibSpanName (n : Nat) : String := "fibonacci-" ++ Nat.repr n

/-- Embedding of `fibonacci` (src/main.go lines 46-64) together with its tracing
side effects. The context argument is modelled as the stack of enclosing span
names (`Tracer.Start` returns a context with the new span pushed); the second
component is the list of emitted telemetry actions, in program order. -/
def fibonacciTraced : List String → Nat → Nat × List SpanEv
  | ctx, 0 =>
    (0, [SpanEv.start "fibonacci" (fibSpanName 0) ctx, SpanEv.setAttr "timestamp",
         SpanEv.stop (fibSpanName 0)])
  | ctx, 1 =>
    (1, [SpanEv.start "fibonacci" (fibSpanName 1) ctx, SpanEv.setAttr "timestamp",
         SpanEv.stop (fibSpanName 1)])
  | ctx, n + 2 =>
    let name := fibSpanName (n + 2)
    let ctx1 := name :: ctx
    let r1 := fibonacciTraced ctx1 (n + 1)
    let r2 := fibonacciTraced ctx1 n
    ((r1.1 + r2.1) % U64,
      [SpanEv.start "fibonacci" name ctx, SpanEv.setAttr "timestamp", SpanEv.stop name]
        ++ r1.2 ++ r2.2)

/-- The numeric component of the traced embedding agrees with `fibonacci`,
whatever the context. -/
theorem fibonacciTraced_fst (c : List String) (n : Nat) :
    (fibonacciTraced c n).1 = fibonacci n := by
  induction n using Nat.strong_induction_on generalizing c with
  | _ n ih =>
    match n with
    | 0 => rfl
    | 1 => rfl
    | n + 2 =>
      simp only [fibonacciTraced, fibonacci]
      rw [ih (n + 1) (by omega), ih n (by omega)]

/-- Model of the `http.ResponseWriter` state as the handlers use it: the status
code explicitly set by `WriteHeader` (when the handler returns without calling
it, net/http sends 200) and the accumulated body text. -/
structure RespWriter where
  statusSet : Option Nat
  body : String
deriving DecidableEq

/-- The writer before the handler runs: no status set, empty body. -/
def RespWriter.init : RespWriter := ⟨none, ""⟩

/-- The (status, body) pair the HTTP server sends for a finished writer:
status 200 when `WriteHeader` was never called. -/
def RespWriter.result (w : RespWriter) : Nat × String := (w.statusSet.getD 200, w.body)

/-- Embedding of `nestedSpanHandler.ServeHTTP` (src/main.go lines 68-86): start
the `parent` span, add an event and an attribute, run the inner function that
starts and ends the `child` span under the parent's context, then end the
parent (deferred). The response writer is never touched. -/
def nestedServeHTTP (w : RespWriter) : RespWriter × List SpanEv :=
  let ctx : List String := []
  let ctx1 := "parent" :: ctx
  let parentEvs := [SpanEv.start "nested" "parent" ctx, SpanEv.addEvent "parent event",
                    SpanEv.setAttr "parentId"]
  let childEvs := [SpanEv.start "nested" "child" ctx1, SpanEv.setAttr "childId",
                   SpanEv.stop "child"]
  (w, parentEvs ++ childEvs ++ [SpanEv.stop "parent"])

/-- Fuel-indexed evaluator of the `fibonacci` recursion (src/main.go lines
46-64): `fibFuel f n` runs the recursion allowing call depth at most `f`, and
returns `none` when the budget is exhausted, so `some` results witness
termination of the recursion. -/
def fibFuel : Nat → Nat → Option Nat
  | 0, _ => none
  | f + 1, n =>
    if n ≤ 1 then some n
    else
      match fibFuel f (n - 1), fibFuel f (n - 2) with
      | some a, some b => some ((a + b) % U64)
      | _, _ => none

/-- With fuel exceeding `n`, the fuel-indexed evaluator succeeds and computes
`fibonacci n`. -/
theorem fibFuel_complete (f n : Nat) (h : n < f) : fibFuel f n = some (fibonacci n) := by
  induction f generalizing n with
  | zero => omega
  | succ f ih =>
    by_cases h1 : n ≤ 1
    · rw [fibonacci_eq_ite, if_pos h1]
      simp [fibFuel, h1]
    · rw [fibonacci_eq_ite, if_neg h1]
      simp only [fibFuel, if_neg h1]
      rw [ih (n - 1) (by omega), ih (n - 2) (by omega)]

/-- One iteration of the background timer loop body (src/main.go lines 118-122)
acting on the `countPerSec` counter vector, modelled as a map from label pairs
(`id`, `database`) to values: `WithLabelValues("1", "db1").Inc()` adds exactly 1
to the (`"1"`, `"db1"`) cell and leaves every other cell unchanged. -/
def timerTick (c : String × String → Nat) : String × String → Nat :=
  fun l => if l = ("1", "db1") then c l + 1 else c l

/-- The `countPerSec` counter vector after `k` ticks of the background timer
loop; a freshly registered prometheus counter starts at 0 in every cell. -/
def counterAfter : Nat → String × String → Nat
  | 0 => fun _ => 0
  | k + 1 => timerTick (counterAfter k)

/-- The (`"1"`, `"db1"`) cell of the counter equals the number of elapsed ticks. -/
theorem counterAfter_eq (k : Nat) : counterAfter k ("1", "db1") = k := by
  induction k with
  | zero => rfl
  | succ k ih => simp [counterAfter, timerTick, ih]

/-- `fibonacci` agrees with the mathematical Fibonacci number modulo 2^64. -/
theorem fibonacci_eq_fib_mod (n : Nat) : fibonacci n = Nat.fib n % U64 := by
  induction n using Nat.strong_induction_on with
  | _ n ih =>
    match n with
    | 0 => rfl
    | 1 => rfl
    | n + 2 =>
      simp only [fibonacci, ih (n + 1) (by omega), ih n (by omega), Nat.fib_add_two]
      conv_rhs => rw [Nat.add_mod]
      rw [Nat.add_comm (Nat.fib n % U64)]

/-- C1: for every request `GET /fibonacci?n=s` where `s` parses as a decimal
integer (per the code's `strconv.ParseInt(s, 10, 64)`), the handler responds
with status 200 and a body equal to the decimal text of the value computed by
`fibonacci` on that input (the parsed value cast to uint64); in particular
`n=10` yields status 200 with body `"55"` (see the witness). -/
theorem fib_handler_success (s : String) (v : Int) (h : parseInt10 s = some v) :
    fibonacciServeHTTP s = (200, Nat.repr (fibonacci (toUint64 v))) := by
  simp [fibonacciServeHTTP, h]

/-- Witness for C1 at `s = "10"`: the parse succeeds with value 10 and the
response is status 200 with body `"55"`. -/
theorem fib_handler_success_witness :
    parseInt10 "10" = some 10 ∧ fibonacciServeHTTP "10" = (200, "55") :=
  ⟨by decide, by rw [fib_handler_success "10" 10 (by decide)]; decide⟩

/-- C2: the fibonacci function satisfies fibonacci(0) = 0, fibonacci(1) = 1 and
fibonacci(10) = 55, for any context argument. -/
theorem fib_base_values (ctx : List String) :
    (fibonacciTraced ctx 0).1 = 0 ∧ (fibonacciTraced ctx 1).1 = 1 ∧
      (fibonacciTraced ctx 10).1 = 55 := by
  refine ⟨?_, ?_, ?_⟩ <;> rw [fibonacciTraced_fst] <;> decide

/-- Witness for C2 at the empty context. -/
theorem fib_base_values_witness :
    (fibonacciTraced [] 0).1 = 0 ∧ (fibonacciTraced [] 1).1 = 1 ∧
      (fibonacciTraced [] 10).1 = 55 :=
  fib_base_values []

/-- C3: the fibonacci function implements the textbook recursive definition:
for every n ≤ 1 it returns n, and for every n > 1 it returns
fibonacci(n-1) + fibonacci(n-2) with uint64 (mod 2^64) addition. -/
theorem fib_recursive_shape (n : Nat) :
    (n ≤ 1 → fibonacci n = n) ∧
      (1 < n → fibonacci n = (fibonacci (n - 1) + fibonacci (n - 2)) % U64) := by
  constructor
  · intro h
    rw [fibonacci_eq_ite, if_pos h]
  · intro h
    rw [fibonacci_eq_ite, if_neg (by omega)]

/-- Witness for C3 at n = 1 and n = 5, discharging each branch hypothesis. -/
theorem fib_recursive_shape_witness :
    fibonacci 1 = 1 ∧ fibonacci 5 = (fibonacci 4 + fibonacci 3) % U64 :=
  ⟨(fib_recursive_shape 1).1 (by decide), (fib_recursive_shape 5).2 (by decide)⟩

/-- C4: the handler responds with status 400 and the fixed body
`"n is not a number"` exactly when the `n` parameter does not parse under
`strconv.ParseInt(s, 10, 64)`; the parse failure is the only request-time error
path of the handler. -/
theorem fib_handler_error (s : String) :
    fibonacciServeHTTP s = (400, "n is not a number") ↔ parseInt10 s = none := by
  rcases h : parseInt10 s with _ | v <;> simp [fibonacciServeHTTP, h]

/-- Witness for C4 at `s = "abc"`. -/
theorem fib_handler_error_witness :
    fibonacciServeHTTP "abc" = (400, "n is not a number") :=
  (fib_handler_error "abc").mpr (by decide)

/-- C5 counterexample: the parameter `"-1"` does not denote a non-negative
integer, yet the handler does not reject it: `ParseInt` succeeds with -1 and
the response status is 200, not 400. -/
theorem neg_param_not_rejected :
    parseInt10 "-1" = some (-1) ∧ (fibonacciServeHTTP "-1").1 = 200 :=
  ⟨by decide, rfl⟩

/-- C5 amended: the handler parses `n` as a *signed* 64-bit integer; a
negative value is not rejected but is cast to uint64 (two's complement) and
`fibonacci` is computed on that cast value, with status 200. -/
theorem neg_param_accepted (s : String) (v : Int) (h : parseInt10 s = some v)
    (_hneg : v < 0) :
    fibonacciServeHTTP s = (200, Nat.repr (fibonacci (toUint64 v))) := by
  simp [fibonacciServeHTTP, h]

/-- Witness for the amended C5 at `s = "-1"`, `v = -1`. -/
theorem neg_param_accepted_witness :
    parseInt10 "-1" = some (-1) ∧
      fibonacciServeHTTP "-1" = (200, Nat.repr (fibonacci (toUint64 (-1)))) :=
  ⟨by decide, neg_param_accepted "-1" (-1) (by decide) (by decide)⟩

/-- C6: `GET /nested` responds with status 200 and an empty body (the handler
never touches the response writer, so net/http sends the defaults), emitting a
`parent` span and a `child` span nested under it as its only side effect. -/
theorem nested_handler_resp :
    (nestedServeHTTP RespWriter.init).1.result = (200, "") ∧
      (nestedServeHTTP RespWriter.init).2 =
        [SpanEv.start "nested" "parent" [], SpanEv.addEvent "parent event",
         SpanEv.setAttr "parentId", SpanEv.start "nested" "child" ["parent"],
         SpanEv.setAttr "childId", SpanEv.stop "child", SpanEv.stop "parent"] := by
  constructor <;> rfl

/-- C7: each tick of the background timer loop increments the `countPerSec`
counter at labels id = "1", database = "db1" by exactly 1, leaves every other
label cell unchanged, and hence after k ticks the counter's value is exactly
k. -/
theorem counter_inc_per_tick (k : Nat) (l : String × String) :
    counterAfter (k + 1) ("1", "db1") = counterAfter k ("1", "db1") + 1 ∧
      (l ≠ ("1", "db1") → counterAfter (k + 1) l = counterAfter k l) ∧
      counterAfter k ("1", "db1") = k := by
  refine ⟨by simp [counterAfter, timerTick], ?_, counterAfter_eq k⟩
  intro hl
  simp [counterAfter, timerTick, hl]

/-- Witness for C7 at k = 5 and the off-label cell ("2", "db1"). -/
theorem counter_inc_per_tick_witness :
    counterAfter 6 ("1", "db1") = counterAfter 5 ("1", "db1") + 1 ∧
      counterAfter 6 ("2", "db1") = counterAfter 5 ("2", "db1") ∧
      counterAfter 5 ("1", "db1") = 5 :=
  ⟨(counter_inc_per_tick 5 ("2", "db1")).1,
   (counter_inc_per_tick 5 ("2", "db1")).2.1 (by decide),
   (counter_inc_per_tick 5 ("2", "db1")).2.2⟩

/-- C8: the fibonacci recursion terminates for every uint64 input: with fuel
n + 1 the fuel-indexed evaluator returns `some` at n, and in particular it
terminates on any value produced by casting a parsed (possibly negative)
integer to uint64. -/
theorem fib_terminates :
    (∀ n : Nat, fibFuel (n + 1) n = some (fibonacci n)) ∧
      ∀ v : Int, fibFuel (toUint64 v + 1) (toUint64 v) = some (fibonacci (toUint64 v)) :=
  ⟨fun n => fibFuel_complete (n + 1) n (by omega),
   fun v => fibFuel_complete (toUint64 v + 1) (toUint64 v) (by omega)⟩

/-- Witness for C8 at n = 5. -/
theorem fib_terminates_witness : fibFuel 6 5 = some (fibonacci 5) :=
  fib_terminates.1 5

/-- C9: the numeric result of fibonacci depends only on n: two calls with the
same n and arbitrary context arguments return equal values, and that common
value is the pure `fibonacci n`, so the tracing side effects never influence
the returned value. -/
theorem fib_ctx_independent (c1 c2 : List String) (n : Nat) :
    (fibonacciTraced c1 n).1 = (fibonacciTraced c2 n).1 ∧
      (fibonacciTraced c1 n).1 = fibonacci n := by
  rw [fibonacciTraced_fst, fibonacciTraced_fst]
  exact ⟨rfl, rfl⟩

/-- Witness for C9 at two concrete distinct contexts and n = 10. -/
theorem fib_ctx_independent_witness :
    (fibonacciTraced [] 10).1 = (fibonacciTraced ["parent"] 10).1 ∧
      (fibonacciTraced [] 10).1 = fibonacci 10 :=
  fib_ctx_independent [] ["parent"] 10

/-- C10: fibonacci computes the mathematical n-th Fibonacci number modulo 2^64
for every n; it equals the true Fibonacci number exactly for all n ≤ 93, and at
n = 94 (where fib 94 ≥ 2^64) it differs from the true value. -/
theorem fib_mod_u64 :
    (∀ n, fibonacci n = Nat.fib n % U64) ∧
      (∀ n, n ≤ 93 → fibonacci n = Nat.fib n) ∧ fibonacci 94 ≠ Nat.fib 94 := by
  refine ⟨fibonacci_eq_fib_mod, fun n h => ?_, ?_⟩
  · rw [fibonacci_eq_fib_mod, Nat.mod_eq_of_lt]
    exact lt_of_le_of_lt (Nat.fib_mono h) (by decide : Nat.fib 93 < U64)
  · rw [fibonacci_eq_fib_mod]
    have hlt : Nat.fib 94 % U64 < U64 := Nat.mod_lt _ (by decide)
    have hge : U64 ≤ Nat.fib 94 := by decide
    omega

/-- Witness for C10 at n = 10 ≤ 93. -/
theorem fib_mod_u64_witness : fibonacci 10 = Nat.fib 10 :=
  fib_mod_u64.2.1 10 (by decide)
